import Mathlib

/-!
# Verification of the oil-drilling data platform's server pipeline

Shallow embedding of the Excel ingestion/validation/transform pipeline and the
statistics / fallback-response derivation implemented in `server/index.js`.
JavaScript numbers are modelled as exact rationals (`ℚ`); JavaScript cell
values (number | string | null | undefined) are modelled by `JSVal`; a raw
spreadsheet record is an association list from column name to cell value.
-/

set_option allowUnsafeReducibility true in
attribute [semireducible] Rat.add Rat.mul Rat.inv Rat.sub

set_option maxRecDepth 8000

/-- Decidable equality for `Except` results (not derived in core). -/
instance exceptDecidableEq {ε α : Type} [DecidableEq ε] [DecidableEq α] :
    DecidableEq (Except ε α) := fun a b =>
  match a, b with
  | .ok x, .ok y =>
    if h : x = y then isTrue (by rw [h]) else isFalse (by simp [h])
  | .error e, .error f =>
    if h : e = f then isTrue (by rw [h]) else isFalse (by simp [h])
  | .ok _, .error _ => isFalse (by simp)
  | .error _, .ok _ => isFalse (by simp)

/-- A JavaScript cell value as it can appear in a parsed spreadsheet record. -/
inductive JSVal where
  | num (q : ℚ)
  | str (s : String)
  | null
  | undefined
deriving DecidableEq, Repr, Inhabited

namespace JSVal

/-- JavaScript truthiness for the values we model:
`0`, `""`, `null` and `undefined` are falsy. -/
def truthy : JSVal → Bool
  | .num q => q ≠ 0
  | .str s => s ≠ ""
  | .null => false
  | .undefined => false

/-- `typeof v === 'number'`. -/
def isNum : JSVal → Bool
  | .num _ => true
  | _ => false

/-- Numeric payload of a value; only meaningful when `isNum` holds. -/
def numOf : JSVal → ℚ
  | .num q => q
  | _ => 0

end JSVal

/-- JavaScript `a || b`: the first operand when truthy, else the second. -/
def jsOr (a b : JSVal) : JSVal := if a.truthy then a else b

/-- A single digit character to its value. -/
def charDigitVal (c : Char) : ℕ := c.toNat - 48

/-- Value of a digit string read in base 10. -/
def digitsVal (l : List Char) : ℕ := l.foldl (fun n c => 10 * n + charDigitVal c) 0

/-- The rational denoted by an integer part and a fractional part, both digit
lists, e.g. `1.25` from `[1]` and `[2,5]`. -/
def decimalVal (intPart fracPart : List Char) : ℚ :=
  (digitsVal intPart : ℚ) + (digitsVal fracPart : ℚ) / (10 : ℚ) ^ fracPart.length

/-- Model of JavaScript `parseFloat` applied to a string: skip leading
whitespace, optional sign, then the longest prefix shaped like
`digits[.digits]` / `.digits`; `none` models `NaN`.  (Exponent forms and
`Infinity`, which never arise in the claims, are not modelled and parse as
the plain decimal prefix / `NaN`.) -/
def parseFloatOfString (s : String) : Option ℚ :=
  let cs := s.data.dropWhile (fun c => c = ' ' || c = '\t' || c = '\n' || c = '\r')
  let signAndRest : ℚ × List Char :=
    match cs with
    | '-' :: rest => (-1, rest)
    | '+' :: rest => (1, rest)
    | _ => (1, cs)
  let intPart := signAndRest.2.takeWhile Char.isDigit
  let afterInt := signAndRest.2.dropWhile Char.isDigit
  let fracPart :=
    match afterInt with
    | '.' :: r => r.takeWhile Char.isDigit
    | _ => []
  if intPart.isEmpty && fracPart.isEmpty then none
  else some (signAndRest.1 * decimalVal intPart fracPart)

/-- Model of JavaScript `Number()` coercion of a string (used by arithmetic on
strings): whitespace-only is `0`, otherwise the whole string must be a signed
decimal literal; `none` models `NaN`. -/
def numberOfString (s : String) : Option ℚ :=
  let cs := s.data.dropWhile (fun c => c = ' ' || c = '\t' || c = '\n' || c = '\r')
  if cs.isEmpty then some 0
  else
    let signAndRest : ℚ × List Char :=
      match cs with
      | '-' :: rest => (-1, rest)
      | '+' :: rest => (1, rest)
      | _ => (1, cs)
    let intPart := signAndRest.2.takeWhile Char.isDigit
    let afterInt := signAndRest.2.dropWhile Char.isDigit
    let fracAndRest : List Char × List Char :=
      match afterInt with
      | '.' :: r => (r.takeWhile Char.isDigit, r.dropWhile Char.isDigit)
      | _ => ([], afterInt)
    if intPart.isEmpty && fracAndRest.1.isEmpty then none
    else if fracAndRest.2.isEmpty then
      some (signAndRest.1 * decimalVal intPart fracAndRest.1)
    else none

/-- Model of `parseFloat` on an arbitrary value; `none` models `NaN`
(`parseFloat(null)` and `parseFloat(undefined)` are `NaN`). -/
def jsParseFloat : JSVal → Option ℚ
  | .num q => some q
  | .str s => parseFloatOfString s
  | .null => none
  | .undefined => none

/-- `parseFloat(v) || null`: the parsed number unless it is `NaN` or `0`
(both falsy), in which case `null` (modelled `none`). -/
def parseOrNull (v : JSVal) : Option ℚ :=
  match jsParseFloat v with
  | some q => if q = 0 then none else some q
  | none => none

/-- `parseFloat(v) || 0`: the parsed number, with `NaN` (and `0` itself)
replaced by `0`. -/
def parseOrZero (v : JSVal) : ℚ :=
  match jsParseFloat v with
  | some q => q
  | none => 0

/-- The binary64 exponent range this model covers: every number the program
computes on its measurement data has magnitude inside [2^-64, 2^64). -/
def floatExpRange : List ℤ := (List.range 129).map (fun k => (k : ℤ) - 64)

/-- Exact-rational model of rounding to the IEEE binary64 format
(JavaScript's number type): round to nearest, ties to even, 53-bit
significand, for magnitudes in [2^-64, 2^64); 0 maps to 0 and a magnitude
outside that range (never produced by this program's data) is returned
unchanged. -/
def roundDouble (q : ℚ) : ℚ :=
  if q = 0 then 0
  else
    match floatExpRange.find?
        (fun e => decide ((2 : ℚ) ^ e ≤ |q| ∧ |q| < (2 : ℚ) ^ (e + 1))) with
    | none => q
    | some e =>
      let scaled := |q| * (2 : ℚ) ^ ((52 : ℤ) - e)
      let m : ℤ := ⌊scaled⌋
      let frac := scaled - (m : ℚ)
      let m2 : ℤ :=
        if 1 / 2 < frac then m + 1
        else if frac < 1 / 2 then m
        else if m % 2 = 0 then m else m + 1
      (if q < 0 then -1 else 1) * (m2 : ℚ) * (2 : ℚ) ^ (e - 52)

/-- A JavaScript floating-point addition: the exact sum, rounded to
binary64. -/
def dadd (a b : ℚ) : ℚ := roundDouble (a + b)

/-- A JavaScript floating-point subtraction: the exact difference, rounded to
binary64. -/
def dsub (a b : ℚ) : ℚ := roundDouble (a - b)

/-- Shortest decimal rendering: the least number of fractional digits (up to
20) that represents `q` exactly. -/
def decimalDigitCount (q : ℚ) : ℕ :=
  ((List.range 21).find? (fun k => (q * (10 : ℚ) ^ k).den = 1)).getD 20

/-- Digit string of a natural number, left-padded with zeros to length at
least `k + 1`. -/
def paddedDigits (n : ℕ) (k : ℕ) : String :=
  let s := toString n
  if s.length ≤ k then String.mk (List.replicate (k + 1 - s.length) '0') ++ s else s

/-- Splice a decimal point `k` digits from the right of a digit string. -/
def withPoint (s : String) (k : ℕ) : String :=
  if k = 0 then s
  else
    let cs := s.data
    String.mk (cs.take (cs.length - k)) ++ "." ++ String.mk (cs.drop (cs.length - k))

/-- Default JavaScript rendering of a number in a template string, modelled as
the shortest exact decimal form. -/
def jsNumToString (q : ℚ) : String :=
  let k := decimalDigitCount q
  let n : ℤ := ⌊q * (10 : ℚ) ^ k⌋
  (if n < 0 then "-" else "") ++ withPoint (paddedDigits n.natAbs k) k

/-- Model of `x.toFixed(d)`: round to `d` decimals and render with exactly
`d` fractional digits. -/
def toFixed (d : ℕ) (q : ℚ) : String :=
  let n : ℤ := round (q * (10 : ℚ) ^ d)
  (if n < 0 then "-" else "") ++ withPoint (paddedDigits n.natAbs d) d

/-- Does `pat` occur at the start of `l`? -/
def listStartsWith : List Char → List Char → Bool
  | _, [] => true
  | [], _ :: _ => false
  | a :: as, b :: bs => a = b && listStartsWith as bs

/-- Does `pat` occur contiguously anywhere in the list? -/
def hasSubList (pat : List Char) : List Char → Bool
  | [] => pat.isEmpty
  | c :: rest => listStartsWith (c :: rest) pat || hasSubList pat rest

/-- JavaScript `s.includes(pat)`. -/
def jsIncludes (s pat : String) : Bool := hasSubList pat.data s.data

/-- JavaScript `s.toLowerCase()` (ASCII, which covers every string the
program lower-cases). -/
def jsToLower (s : String) : String := String.mk (s.data.map Char.toLower)

/-- A raw spreadsheet record: column name to cell value, in header order.
An absent key reads as `undefined`. -/
def RawRecord := List (String × JSVal)

instance : DecidableEq RawRecord := by
  unfold RawRecord
  infer_instance

/-- `row[k]`: the cell under key `k`, `undefined` when the key is absent. -/
def getCell (r : RawRecord) (k : String) : JSVal :=
  match r.lookup k with
  | some v => v
  | none => .undefined

/-- `row[k] !== null && row[k] !== undefined`. -/
def cellPresent (r : RawRecord) (k : String) : Bool :=
  getCell r k ≠ JSVal.null && getCell r k ≠ JSVal.undefined

/-- JavaScript `+` on the values that can appear while accumulating the
rock-composition sum (each operand is `cell || 0`, hence a number or a
non-empty string): number + number adds, any string concatenates.  `null` and
`undefined` cannot occur as operands here; they are coerced like `0` so the
function is total. -/
def jsAdd : JSVal → JSVal → JSVal
  | .num a, .num b => .num (dadd a b)
  | .num a, .str s => .str (jsNumToString a ++ s)
  | .str s, .num b => .str (s ++ jsNumToString b)
  | .str s, .str t => .str (s ++ t)
  | .num a, _ => .num a
  | .str s, _ => .str s
  | _, b => b

/-- JavaScript `Number()` coercion used by `-` and comparison operators;
`none` models `NaN`. -/
def jsToNumber : JSVal → Option ℚ
  | .num q => some q
  | .str s => numberOfString s
  | .null => some 0
  | .undefined => none

/-- The required spreadsheet columns, in source order. -/
def requiredColumns : List String :=
  ["DEPTH", "%SH", "%SS", "%LS", "%DOL", "%ANH", "%Coal", "%Salt", "DT", "GR"]

/-- The seven rock-percentage columns, in source order. -/
def percentageColumns : List String :=
  ["%SH", "%SS", "%LS", "%DOL", "%ANH", "%Coal", "%Salt"]

/-- `(row['%SH'] || 0) + (row['%SS'] || 0) + ... + (row['%Salt'] || 0)`,
left-associated as in the source. -/
def rockCompositionSum (row : RawRecord) : JSVal :=
  List.foldl (fun acc col => jsAdd acc (jsOr (getCell row col) (.num 0)))
    (jsOr (getCell row "%SH") (.num 0))
    ["%SS", "%LS", "%DOL", "%ANH", "%Coal", "%Salt"]

/-- `Math.abs(sum - 1) > 0.01` under JavaScript coercion: the subtraction is
a binary64 operation and the literal `0.01` denotes its nearest double;
comparisons against `NaN` are false. -/
def sumCheckFails (sum : JSVal) : Bool :=
  match jsToNumber sum with
  | some q => |dsub q 1| > roundDouble (1 / 100)
  | none => false

/-- Errors from the `DEPTH` check of one row (`rowNum` is 1-based). -/
def depthErrors (rowNum : ℕ) (row : RawRecord) : List String :=
  if cellPresent row "DEPTH" then
    if !(getCell row "DEPTH").isNum || (getCell row "DEPTH").numOf < 0 then
      ["Row " ++ toString rowNum ++ ": DEPTH must be a positive number"]
    else []
  else []

/-- Errors from the seven percentage-column range checks of one row. -/
def percentageErrors (rowNum : ℕ) (row : RawRecord) : List String :=
  percentageColumns.foldr
    (fun col acc =>
      (if cellPresent row col then
        if !(getCell row col).isNum || (getCell row col).numOf < 0 ||
            (getCell row col).numOf > 1 then
          ["Row " ++ toString rowNum ++ ": " ++ col ++ " must be a number between 0 and 1"]
        else []
      else []) ++ acc)
    []

/-- Errors from the `DT`/`GR` numeric-type checks of one row. -/
def dtGrErrors (rowNum : ℕ) (row : RawRecord) : List String :=
  (["DT", "GR"] : List String).foldr
    (fun col acc =>
      (if cellPresent row col then
        if !(getCell row col).isNum then
          ["Row " ++ toString rowNum ++ ": " ++ col ++ " must be a number"]
        else []
      else []) ++ acc)
    []

/-- The rock-composition-sum check of one row.  When the check fires on a
sum that is not a number (a truthy string percentage cell makes the whole
accumulation a string), the source calls `toFixed` on a string and throws a
`TypeError`; the `.error` case models that exception. -/
def sumErrorsE (rowNum : ℕ) (row : RawRecord) : Except String (List String) :=
  if sumCheckFails (rockCompositionSum row) then
    match rockCompositionSum row with
    | .num q =>
      .ok ["Row " ++ toString rowNum ++
        ": Rock composition percentages should sum to approximately 1.0 (current sum: " ++
        toFixed 3 q ++ ")"]
    | _ => .error "TypeError: rockCompositionSum.toFixed is not a function"
  else .ok []

/-- All errors pushed while validating one row, in push order: depth,
percentages, DT/GR, sum.  A sum-check `TypeError` propagates and discards
them all. -/
def rowErrorsE (rowNum : ℕ) (row : RawRecord) : Except String (List String) :=
  (sumErrorsE rowNum row).map
    (fun se => depthErrors rowNum row ++ percentageErrors rowNum row ++
      dtGrErrors rowNum row ++ se)

/-- The missing-required-columns errors derived from the first record's keys. -/
def missingColumnErrors (data : List RawRecord) : List String :=
  match data with
  | [] => []
  | first :: _ =>
    let headers := first.map Prod.fst
    let missingColumns := requiredColumns.filter (fun col => !headers.contains col)
    if missingColumns.length > 0 then
      ["Missing required columns: " ++ String.intercalate ", " missingColumns]
    else []

/-- `data.forEach(...)`: the per-row errors accumulated in row order,
starting at 1-based `rowNum`; the first thrown `TypeError` aborts the loop
and discards everything accumulated. -/
def collectRowErrors (rowNum : ℕ) : List RawRecord → Except String (List String)
  | [] => .ok []
  | r :: rest => do
    let es ← rowErrorsE rowNum r
    let more ← collectRowErrors (rowNum + 1) rest
    return es ++ more

/-- Result of `validateExcelStructure`.  In the empty-data early return the
source object carries no `totalRows`/`columns` keys; they are rendered here as
`0` and `[]`. -/
structure ValidationResult where
  isValid : Bool
  errors : List String
  totalRows : ℕ
  columns : List String
deriving DecidableEq, Repr

/-- `validateExcelStructure(data)`: the missing-column check, then every
per-row check of every row, all accumulated into one error list; a sum-check
`TypeError` escapes as the `.error` case instead of a result. -/
def validateExcelStructure (data : List RawRecord) : Except String ValidationResult :=
  match data with
  | [] => .ok ⟨false, ["Excel file is empty or contains no data"], 0, []⟩
  | first :: _ =>
    (collectRowErrors 1 data).map (fun rowErrs =>
      let errors := missingColumnErrors data ++ rowErrs
      ⟨errors.isEmpty, errors, data.length, first.map Prod.fst⟩)

/-- A normalized row as produced by `processExcelData`. -/
structure ProcessedRow where
  DEPTH : Option ℚ
  SH : ℚ
  SS : ℚ
  LS : ℚ
  DOL : ℚ
  ANH : ℚ
  Coal : ℚ
  Salt : ℚ
  DT : Option ℚ
  GR : Option ℚ
  rowIndex : ℕ
  dominantRockType : String
deriving DecidableEq, Repr

/-- One step of `Object.keys(rockTypes).reduce((a, b) => rockTypes[a] >
rockTypes[b] ? a : b)`: keep the accumulator only on strict `>`. -/
def pickGreater (a b : String × ℚ) : String × ℚ := if a.2 > b.2 then a else b

/-- Transform one raw record (0-based `index`) into a `ProcessedRow`. -/
def processRow (row : RawRecord) (index : ℕ) : ProcessedRow :=
  let sh := parseOrZero (getCell row "%SH")
  let ss := parseOrZero (getCell row "%SS")
  let ls := parseOrZero (getCell row "%LS")
  let dol := parseOrZero (getCell row "%DOL")
  let anh := parseOrZero (getCell row "%ANH")
  let coal := parseOrZero (getCell row "%Coal")
  let salt := parseOrZero (getCell row "%Salt")
  { DEPTH := parseOrNull (getCell row "DEPTH")
    SH := sh, SS := ss, LS := ls, DOL := dol, ANH := anh, Coal := coal, Salt := salt
    DT := parseOrNull (getCell row "DT")
    GR := parseOrNull (getCell row "GR")
    rowIndex := index + 1
    dominantRockType :=
      (List.foldl pickGreater ("Shale", sh)
        [("Sandstone", ss), ("Limestone", ls), ("Dolomite", dol),
         ("Anhydrite", anh), ("Coal", coal), ("Salt", salt)]).1 }

/-- `processExcelData(data)`: map every raw record to its normalized row. -/
def processExcelData (data : List RawRecord) : List ProcessedRow :=
  data.enum.map (fun p => processRow p.2 p.1)

/-- The seven (category, percentage) pairs of a row, in the fixed source
order. -/
def rockPairs (r : ProcessedRow) : List (String × ℚ) :=
  [("Shale", r.SH), ("Sandstone", r.SS), ("Limestone", r.LS), ("Dolomite", r.DOL),
   ("Anhydrite", r.ANH), ("Coal", r.Coal), ("Salt", r.Salt)]

/-- The maximum of the seven category percentages. -/
def maxPerc (r : ProcessedRow) : ℚ :=
  max r.SH (max r.SS (max r.LS (max r.DOL (max r.ANH (max r.Coal r.Salt)))))

/-- Modelled from the spec sentence of the claim: the first category, in the
fixed order Shale, Sandstone, Limestone, Dolomite, Anhydrite, Coal, Salt,
whose percentage achieves the maximum. -/
def specFirstMaxCategory (r : ProcessedRow) : String :=
  (((rockPairs r).find? (fun p => p.2 = maxPerc r)).map Prod.fst).getD ""

/-- The last category, in the fixed order, whose percentage achieves the
maximum (equivalently the first one of the reversed order). -/
def specLastMaxCategory (r : ProcessedRow) : String :=
  (((rockPairs r).reverse.find? (fun p => p.2 = maxPerc r)).map Prod.fst).getD ""

/-- Dataset statistics as computed on upload.  `depthMin`/`depthMax` are
`none` when no row has a non-null depth (the source then yields the non-finite
`Math.min()`/`Math.max()` of an empty spread). -/
structure Stats where
  totalRows : ℕ
  depthMin : Option ℚ
  depthMax : Option ℚ
  rockTypeDistribution : List (String × ℕ)
  avgDT : ℚ
  avgGR : ℚ
deriving DecidableEq, Repr

/-- `processedData.map(row => row.DEPTH).filter(d => d !== null)`. -/
def depthList (rows : List ProcessedRow) : List ℚ :=
  (rows.map ProcessedRow.DEPTH).filterMap id

/-- `processedData.reduce((sum, row) => sum + (row.DT || 0), 0)`. -/
def dtSum (rows : List ProcessedRow) : ℚ :=
  rows.foldl (fun s r => s + r.DT.getD 0) 0

/-- `processedData.reduce((sum, row) => sum + (row.GR || 0), 0)`. -/
def grSum (rows : List ProcessedRow) : ℚ :=
  rows.foldl (fun s r => s + r.GR.getD 0) 0

/-- Bump the count under a key, preserving first-insertion key order
(JavaScript object key order). -/
def bumpCount : List (String × ℕ) → String → List (String × ℕ)
  | [], k => [(k, 1)]
  | (k0, c) :: rest, k =>
    if k0 = k then (k0, c + 1) :: rest else (k0, c) :: bumpCount rest k

/-- The `rockTypeDistribution` accumulation over all processed rows. -/
def rockTypeDistributionOf (rows : List ProcessedRow) : List (String × ℕ) :=
  rows.foldl (fun d r => bumpCount d r.dominantRockType) []

/-- The summary-statistics block built by the upload route.  The averages
divide by `totalRows`; on an empty row list the source would divide by zero
(`NaN`), rendered here as `0`, but every caller guarantees a non-empty list. -/
def computeStats (rows : List ProcessedRow) : Stats :=
  { totalRows := rows.length
    depthMin := (depthList rows).min?
    depthMax := (depthList rows).max?
    rockTypeDistribution := rockTypeDistributionOf rows
    avgDT := dtSum rows / rows.length
    avgGR := grSum rows / rows.length }

/-- The uploaded-dataset context a chat request may carry. -/
structure UploadedData where
  rows : Option (List ProcessedRow)
  statistics : Option Stats
  fileId : Option ℕ
deriving DecidableEq, Repr

/-- `(assoc[k] || 0)` for the rock-type distribution object. -/
def lookupCount (dist : List (String × ℕ)) (k : String) : ℕ :=
  ((dist.lookup k).getD 0)

/-- One anomaly reported by `detectDataAnomalies`. -/
structure Anomaly where
  depth : Option ℚ
  type : String
  description : String
deriving DecidableEq, Repr

/-- `${row.DEPTH}` in a template string: `null` renders as `"null"`. -/
def depthDisplay : Option ℚ → String
  | some q => jsNumToString q
  | none => "null"

/-- The total composition summed by the anomaly detector:
`rockTypes.reduce((sum, type) => sum + (row[`%`+type] || row[type] || 0), 0)`.
On rows produced by `processExcelData` the `%`-prefixed keys do not exist, so
the plain fields are summed. -/
def totalComposition (r : ProcessedRow) : ℚ :=
  r.SH + r.SS + r.LS + r.DOL + r.ANH + r.Coal + r.Salt

/-- The composition anomaly entry for a row. -/
def compositionAnomaly (r : ProcessedRow) : Anomaly :=
  ⟨r.DEPTH, "composition_error",
    "Depth " ++ depthDisplay r.DEPTH ++ "m: rock composition sums to " ++
      toFixed 1 (totalComposition r) ++ "%"⟩

/-- The anomalies contributed by one row: composition-sum deviation beyond
±15 around 100, then extreme DT, then extreme GR (`row.DT &&` / `row.GR &&`
skip null and the falsy value 0). -/
def rowAnomalies (r : ProcessedRow) : List Anomaly :=
  (if |totalComposition r - 100| > 15 then [compositionAnomaly r] else []) ++
  (match r.DT with
   | some dt =>
     if dt ≠ 0 ∧ (dt < 30 ∨ dt > 250) then
       [⟨r.DEPTH, "dt_extreme",
         "Depth " ++ depthDisplay r.DEPTH ++ "m: extreme DT value (" ++
           jsNumToString dt ++ " μs/ft)"⟩]
     else []
   | none => []) ++
  (match r.GR with
   | some gr =>
     if gr ≠ 0 ∧ (gr < 0 ∨ gr > 400) then
       [⟨r.DEPTH, "gr_extreme",
         "Depth " ++ depthDisplay r.DEPTH ++ "m: extreme GR value (" ++
           jsNumToString gr ++ " API)"⟩]
     else []
   | none => []) 

/-- `detectDataAnomalies(rows)`: all per-row anomalies in order, capped at 5. -/
def detectDataAnomalies (rows : List ProcessedRow) : List Anomaly :=
  ((rows.map rowAnomalies).flatten).take 5

/-- `generateDrillingRecommendations(uploadedData)`.  Note the source reads
the distribution under the abbreviated keys `SH`/`SS`/`LS`/`DOL` although the
distribution produced by the upload route is keyed by the full category
names. -/
def generateDrillingRecommendations (uploadedData : Option UploadedData) : String :=
  match uploadedData with
  | none => "Upload data required for specific recommendations."
  | some u =>
    match u.statistics with
    | none => "Upload data required for specific recommendations."
    | some stats =>
      let rockDist := stats.rockTypeDistribution
      let totalIntervals : ℕ := (rockDist.map Prod.snd).sum
      let shalePercent : ℚ := (lookupCount rockDist "SH" : ℚ) / totalIntervals * 100
      let sandstonePercent : ℚ := (lookupCount rockDist "SS" : ℚ) / totalIntervals * 100
      let carbonatePercent : ℚ :=
        ((lookupCount rockDist "LS" + lookupCount rockDist "DOL" : ℕ) : ℚ) / totalIntervals * 100
      let recommendations : List String :=
        (if shalePercent > 40 then
          ["High shale content detected - use inhibitive mud system to prevent wellbore instability"]
         else []) ++
        (if sandstonePercent > 30 then
          ["Significant sandstone intervals - consider PDC bits for optimal ROP"]
         else []) ++
        (if carbonatePercent > 25 then
          ["Carbonate formations present - roller cone bits may be more effective"]
         else []) ++
        (if stats.avgDT > 100 then
          ["High DT values suggest porous formations - monitor for potential lost circulation"]
         else if stats.avgDT < 60 then
          ["Low DT values indicate dense formations - expect slower drilling rates"]
         else []) ++
        (if stats.avgGR > 100 then
          ["High GR readings indicate clay-rich zones - use appropriate mud additives for shale control"]
         else [])
      let recommendations :=
        if recommendations.length = 0 then
          ["Formation appears relatively uniform - maintain current drilling parameters and monitor for changes"]
        else recommendations
      "Drilling recommendations based on your data: " ++
        String.intercalate "; " recommendations ++ "."

/-- Outcome of decoding the uploaded workbook, up to the raw row grid
(`XLSX.readFile` + `sheet_to_json` with `header: 1`). -/
inductive ParseOutcome where
  | readError (msg : String)
  | noSheets
  | noWorksheet
  | sheetRows (rawData : List (List JSVal))
deriving DecidableEq, Repr

/-- Object key used for a header cell (JavaScript coerces the key to a
string). -/
def headerKey : JSVal → String
  | .str s => s
  | .num q => jsNumToString q
  | .null => "null"
  | .undefined => "undefined"

/-- `headers.forEach((header, index) => obj[header] = row[index])`: build one
record from the header row and one data row; indices past the row's end read
`undefined`. -/
def buildRecord (headers : List JSVal) (row : List JSVal) : RawRecord :=
  headers.enum.map (fun p => (headerKey p.2, row.getD p.1 .undefined))

/-- `allowedExtensions.includes(path.extname(...).toLowerCase())`. -/
def allowedExtension (ext : String) : Bool :=
  ([".xlsx", ".xls"] : List String).contains (jsToLower ext)

/-- The upload endpoint's JSON reply (the fields relevant to the claims). -/
structure UploadResponse where
  status : ℕ
  error : Option String
  details : List String
  rows : Option (List ProcessedRow)
  statistics : Option Stats
deriving DecidableEq, Repr

/-- The upload endpoint handler, modelled over the declared (lower-cased by
the handler) file extension and the decode outcome.  The second component of
the result records whether `validateExcelStructure` was invoked. -/
def uploadHandler (fileProvided : Bool) (fileExtension : String)
    (outcome : ParseOutcome) : UploadResponse × Bool :=
  if !fileProvided then
    (⟨400, some "No file uploaded", [], none, none⟩, false)
  else if !(allowedExtension fileExtension) then
    (⟨400, some "Only Excel files are allowed", [], none, none⟩, false)
  else
    match outcome with
    | .readError _ =>
      (⟨400, some "Invalid Excel file format", [], none, none⟩, false)
    | .noSheets =>
      (⟨400, some "Invalid Excel file structure",
        ["Excel file contains no worksheets"], none, none⟩, false)
    | .noWorksheet =>
      (⟨400, some "Invalid Excel file structure",
        ["Unable to read worksheet data"], none, none⟩, false)
    | .sheetRows rawData =>
      if rawData.length = 0 then
        (⟨400, some "Invalid Excel file structure",
          ["Excel file is empty or contains no data"], none, none⟩, false)
      else if rawData.length < 2 then
        (⟨400, some "Invalid Excel file structure",
          ["Excel file must contain at least a header row and one data row"],
          none, none⟩, false)
      else
        match rawData with
        | [] =>
          (⟨400, some "Invalid Excel file structure",
            ["Excel file is empty or contains no data"], none, none⟩, false)
        | headers :: rest =>
          let dataRows := rest.map (buildRecord headers)
          match validateExcelStructure dataRows with
          | .error _ =>
            -- the validator's TypeError reaches the route's catch, whose
            -- message patterns do not match, so the generic 500 is returned
            (⟨500, some "Failed to process file", [], none, none⟩, true)
          | .ok validation =>
            if !validation.isValid then
              (⟨400, some "Invalid Excel file structure", validation.errors,
                none, none⟩, true)
            else
              let processedData := processExcelData dataRows
              if processedData.length = 0 then
                (⟨400, some "Invalid Excel file structure",
                  ["Excel file contains no data rows. Please ensure your file contains at least one row of data."],
                  none, none⟩, true)
              else
                (⟨200, none, [], some processedData, some (computeStats processedData)⟩,
                  true)

/-! ## Tie-breaking of the dominant-category fold (claim C1) -/

lemma foldl_pickGreater_split (l : List (String × ℚ)) :
    ∀ a : String × ℚ, ∃ l₁ l₂ : List (String × ℚ),
      a :: l = l₁ ++ (l.foldl pickGreater a) :: l₂ ∧
      (∀ b ∈ l₁, b.2 ≤ (l.foldl pickGreater a).2) ∧
      (∀ b ∈ l₂, b.2 < (l.foldl pickGreater a).2) := by
  induction l with
  | nil =>
    intro a
    exact ⟨[], [], rfl, by simp, by simp⟩
  | cons c t ih =>
    intro a
    have hfold : (c :: t).foldl pickGreater a = t.foldl pickGreater (pickGreater a c) := rfl
    obtain ⟨l₁, l₂, heq, hle, hlt⟩ := ih (pickGreater a c)
    by_cases hac : a.2 > c.2
    · have hpick : pickGreater a c = a := if_pos hac
      rw [hpick] at heq hle hlt
      cases l₁ with
      | nil =>
        simp only [List.nil_append, List.cons.injEq] at heq
        obtain ⟨hra, hl₂⟩ := heq
        refine ⟨[], c :: t, ?_, by simp, ?_⟩
        · rw [hfold, hpick, List.nil_append, ← hra]
        · intro b hb
          rw [hfold, hpick]
          rcases List.mem_cons.1 hb with h | h
          · rw [h, ← hra]; exact hac
          · exact hlt b (hl₂ ▸ h)
      | cons d m =>
        simp only [List.cons_append, List.cons.injEq] at heq
        obtain ⟨had, htail⟩ := heq
        have hmem_a : a ∈ d :: m := had ▸ List.mem_cons_self _ _
        have har : a.2 ≤ (t.foldl pickGreater a).2 := hle a hmem_a
        refine ⟨a :: c :: m, l₂, ?_, ?_, ?_⟩
        · rw [hfold, hpick]
          conv_lhs => rw [htail]
          simp
        · intro b hb
          rw [hfold, hpick]
          rcases List.mem_cons.1 hb with h | h
          · rw [h]; exact har
          · rcases List.mem_cons.1 h with h2 | h2
            · rw [h2]; exact le_trans (le_of_lt hac) har
            · exact hle b (List.mem_cons_of_mem _ h2)
        · intro b hb
          rw [hfold, hpick]
          exact hlt b hb
    · have hpick : pickGreater a c = c := if_neg hac
      push_neg at hac
      rw [hpick] at heq hle hlt
      cases l₁ with
      | nil =>
        simp only [List.nil_append, List.cons.injEq] at heq
        obtain ⟨hrc, hl₂⟩ := heq
        refine ⟨[a], t, ?_, ?_, ?_⟩
        · rw [hfold, hpick, ← hrc]
          simp
        · intro b hb
          rw [hfold, hpick]
          rw [List.mem_singleton.1 hb, ← hrc]
          exact hac
        · intro b hb
          rw [hfold, hpick]
          exact hlt b (hl₂ ▸ hb)
      | cons d m =>
        simp only [List.cons_append, List.cons.injEq] at heq
        obtain ⟨hcd, htail⟩ := heq
        have hmem_c : c ∈ d :: m := hcd ▸ List.mem_cons_self _ _
        have hcr : c.2 ≤ (t.foldl pickGreater c).2 := hle c hmem_c
        refine ⟨a :: c :: m, l₂, ?_, ?_, ?_⟩
        · rw [hfold, hpick]
          conv_lhs => rw [htail]
          simp
        · intro b hb
          rw [hfold, hpick]
          rcases List.mem_cons.1 hb with h | h
          · rw [h]; exact le_trans hac hcr
          · rcases List.mem_cons.1 h with h2 | h2
            · rw [h2]; exact hcr
            · exact hle b (List.mem_cons_of_mem _ h2)
        · intro b hb
          rw [hfold, hpick]
          exact hlt b hb

lemma foldl_pickGreater_mem_le (l : List (String × ℚ)) (a : String × ℚ) :
    ∀ b ∈ a :: l, b.2 ≤ (l.foldl pickGreater a).2 := by
  obtain ⟨l₁, l₂, heq, hle, hlt⟩ := foldl_pickGreater_split l a
  intro b hb
  rw [heq] at hb
  rcases List.mem_append.1 hb with h | h
  · exact hle b h
  · rcases List.mem_cons.1 h with h | h
    · rw [h]
    · exact le_of_lt (hlt b h)

lemma foldl_pickGreater_mem (l : List (String × ℚ)) (a : String × ℚ) :
    l.foldl pickGreater a ∈ a :: l := by
  obtain ⟨l₁, l₂, heq, -, -⟩ := foldl_pickGreater_split l a
  rw [heq]
  exact List.mem_append_right _ (List.mem_cons_self _ _)

lemma dominant_foldl_eq_lastMax (row : ProcessedRow)
    (h : row.dominantRockType =
      (List.foldl pickGreater ("Shale", row.SH)
        [("Sandstone", row.SS), ("Limestone", row.LS), ("Dolomite", row.DOL),
         ("Anhydrite", row.ANH), ("Coal", row.Coal), ("Salt", row.Salt)]).1) :
    row.dominantRockType = specLastMaxCategory row := by
  set a : String × ℚ := ("Shale", row.SH) with ha
  set l : List (String × ℚ) :=
    [("Sandstone", row.SS), ("Limestone", row.LS), ("Dolomite", row.DOL),
     ("Anhydrite", row.ANH), ("Coal", row.Coal), ("Salt", row.Salt)] with hl
  have hpairs : rockPairs row = a :: l := rfl
  have hub : ∀ b ∈ a :: l, b.2 ≤ (l.foldl pickGreater a).2 := foldl_pickGreater_mem_le l a
  have hmem : l.foldl pickGreater a ∈ a :: l := foldl_pickGreater_mem l a
  have hmax_le : maxPerc row ≤ (l.foldl pickGreater a).2 := by
    have h1 := hub a (by simp)
    have h2 := hub ("Sandstone", row.SS) (by simp [hl])
    have h3 := hub ("Limestone", row.LS) (by simp [hl])
    have h4 := hub ("Dolomite", row.DOL) (by simp [hl])
    have h5 := hub ("Anhydrite", row.ANH) (by simp [hl])
    have h6 := hub ("Coal", row.Coal) (by simp [hl])
    have h7 := hub ("Salt", row.Salt) (by simp [hl])
    rw [ha] at h1
    simp only [maxPerc]
    exact max_le h1 (max_le h2 (max_le h3 (max_le h4 (max_le h5 (max_le h6 h7)))))
  have hle_max : (l.foldl pickGreater a).2 ≤ maxPerc row := by
    have hm := hmem
    rw [ha, hl] at hm
    simp only [List.mem_cons, List.not_mem_nil, or_false] at hm
    rcases hm with h'|h'|h'|h'|h'|h'|h' <;> rw [h'] <;> simp [maxPerc, le_max_iff]
  have hmax : (l.foldl pickGreater a).2 = maxPerc row := le_antisymm hle_max hmax_le
  obtain ⟨l₁, l₂, heq, hle, hlt⟩ := foldl_pickGreater_split l a
  have hrev : (a :: l).reverse = l₂.reverse ++ (l.foldl pickGreater a) :: l₁.reverse := by
    rw [heq]
    simp
  have hnone : l₂.reverse.find? (fun p => p.2 = maxPerc row) = none := by
    apply List.find?_eq_none.2
    intro x hx
    have hx2 := hlt x (List.mem_reverse.1 hx)
    rw [hmax] at hx2
    simp [ne_of_lt hx2]
  have hfind : (a :: l).reverse.find? (fun p => p.2 = maxPerc row) =
      some (l.foldl pickGreater a) := by
    rw [hrev, List.find?_append, hnone, Option.none_or]
    apply List.find?_cons_of_pos
    simp [hmax]
  rw [h]
  unfold specLastMaxCategory
  rw [hpairs, hfind]
  rfl

/-- A raw record whose Shale and Sandstone cells tie at the maximum. -/
def c1TieRecord : RawRecord :=
  [("DEPTH", .num 100), ("%SH", .num (1/2)), ("%SS", .num (1/2)), ("%LS", .num 0),
   ("%DOL", .num 0), ("%ANH", .num 0), ("%Coal", .num 0), ("%Salt", .num 0),
   ("DT", .num 80), ("GR", .num 50)]

/-- C1, counterexample: on a row whose Shale and Sandstone percentages tie at
the maximum (0.5 each), `processExcelData` sets `dominantRockType` to
`"Sandstone"` while the first category achieving the maximum — what the claim
states — is `"Shale"`. -/
theorem processExcelData_dominant_first_max_cex :
    (processExcelData [c1TieRecord]).map
      (fun r => (r.dominantRockType, specFirstMaxCategory r)) =
      [("Sandstone", "Shale")] := by decide

/-- C1 (amended): for every row produced by `processExcelData`, the
`dominantRockType` equals the LAST category, in the fixed order Shale,
Sandstone, Limestone, Dolomite, Anhydrite, Coal, Salt, whose percentage
achieves the maximum of the 7 category percentages — the `reduce` keeps the
accumulator only on strict `>`, so ties go to the later category. -/
theorem processExcelData_dominant_is_last_max (data : List RawRecord) :
    ∀ row ∈ processExcelData data, row.dominantRockType = specLastMaxCategory row := by
  intro row hrow
  simp only [processExcelData, List.mem_map] at hrow
  obtain ⟨p, hp, hrow⟩ := hrow
  subst hrow
  apply dominant_foldl_eq_lastMax
  rfl

/-- Witness for C1's amended theorem at a concrete tied row. -/
theorem processExcelData_dominant_is_last_max_witness :
    (processRow c1TieRecord 0).dominantRockType =
      specLastMaxCategory (processRow c1TieRecord 0) :=
  processExcelData_dominant_is_last_max [c1TieRecord] (processRow c1TieRecord 0)
    (by decide)

/-! ## Totality and shape preservation of the transformer (claim C8) -/

/-- C8: `processExcelData` is total over arbitrary cell values (it is a Lean
function, so it throws nothing) and returns exactly one normalized row per
input record, in the same order: the output has the input's length, and the
row at every position `i` is the transform of the input record at position
`i` (with 1-based `rowIndex` `i + 1`). -/
theorem processExcelData_total_same_order (data : List RawRecord) (i : ℕ) :
    (processExcelData data).length = data.length ∧
    (processExcelData data)[i]? = (data[i]?).map (fun r => processRow r i) := by
  constructor
  · simp [processExcelData]
  · simp only [processExcelData, List.getElem?_map, List.getElem?_enum]
    cases h : data[i]? <;> simp [h]

/-! ## Coercion of the numeric value 0 (claim C9) -/

/-- C9: a cell holding the number 0 in `DEPTH`, `DT` or `GR` is coerced to
`null` by the transformer (`parseFloat(x) || null` treats 0 as falsy), while a
category-percentage cell holding 0 stays 0; consequently such a row is
excluded from the depth-range candidate list and contributes 0 to the DT/GR
average sums while still counting in `totalRows`. -/
theorem processRow_zero_coerces_to_null (row : RawRecord) (i : ℕ)
    (hDepth : getCell row "DEPTH" = .num 0) (hDT : getCell row "DT" = .num 0)
    (hGR : getCell row "GR" = .num 0) (hSH : getCell row "%SH" = .num 0) :
    (processRow row i).DEPTH = none ∧ (processRow row i).DT = none ∧
    (processRow row i).GR = none ∧ (processRow row i).SH = 0 ∧
    (∀ rest : List ProcessedRow,
      depthList (processRow row i :: rest) = depthList rest ∧
      dtSum (processRow row i :: rest) = dtSum rest ∧
      grSum (processRow row i :: rest) = grSum rest ∧
      (computeStats (processRow row i :: rest)).totalRows = rest.length + 1) := by
  have hd : (processRow row i).DEPTH = none := by
    simp [processRow, parseOrNull, jsParseFloat, hDepth]
  have hdt : (processRow row i).DT = none := by
    simp [processRow, parseOrNull, jsParseFloat, hDT]
  have hgr : (processRow row i).GR = none := by
    simp [processRow, parseOrNull, jsParseFloat, hGR]
  have hsh : (processRow row i).SH = 0 := by
    simp [processRow, parseOrZero, jsParseFloat, hSH]
  refine ⟨hd, hdt, hgr, hsh, ?_⟩
  intro rest
  refine ⟨?_, ?_, ?_, ?_⟩
  · simp [depthList, hd]
  · simp [dtSum, hdt]
  · simp [grSum, hgr]
  · simp [computeStats]

/-- Witness for C9 at a concrete all-zero record. -/
theorem processRow_zero_coerces_to_null_witness :
    (processRow [("DEPTH", .num 0), ("%SH", .num 0), ("DT", .num 0), ("GR", .num 0)] 0).DEPTH
      = none ∧
    (processRow [("DEPTH", .num 0), ("%SH", .num 0), ("DT", .num 0), ("GR", .num 0)] 0).DT
      = none ∧
    (processRow [("DEPTH", .num 0), ("%SH", .num 0), ("DT", .num 0), ("GR", .num 0)] 0).GR
      = none ∧
    (processRow [("DEPTH", .num 0), ("%SH", .num 0), ("DT", .num 0), ("GR", .num 0)] 0).SH
      = 0 ∧
    (∀ rest : List ProcessedRow,
      depthList
          (processRow [("DEPTH", .num 0), ("%SH", .num 0), ("DT", .num 0), ("GR", .num 0)] 0
            :: rest) = depthList rest ∧
      dtSum
          (processRow [("DEPTH", .num 0), ("%SH", .num 0), ("DT", .num 0), ("GR", .num 0)] 0
            :: rest) = dtSum rest ∧
      grSum
          (processRow [("DEPTH", .num 0), ("%SH", .num 0), ("DT", .num 0), ("GR", .num 0)] 0
            :: rest) = grSum rest ∧
      (computeStats
          (processRow [("DEPTH", .num 0), ("%SH", .num 0), ("DT", .num 0), ("GR", .num 0)] 0
            :: rest)).totalRows = rest.length + 1) :=
  processRow_zero_coerces_to_null
    [("DEPTH", .num 0), ("%SH", .num 0), ("DT", .num 0), ("GR", .num 0)] 0
    (by decide) (by decide) (by decide) (by decide)

/-! ## Average semantics of the statistics aggregator (claim C5) -/

lemma foldl_add_eq_sum (f : ProcessedRow → ℚ) (l : List ProcessedRow) :
    ∀ init : ℚ, l.foldl (fun s r => s + f r) init = init + (l.map f).sum := by
  induction l with
  | nil => simp
  | cons a t ih =>
    intro init
    simp only [List.foldl_cons, List.map_cons, List.sum_cons, ih]
    ring

/-- The three-row data set of the claim's fixture: DT = 80, 85, 90. -/
def c5Data : List RawRecord :=
  [[("DEPTH", .num 100), ("%SH", .num 1), ("%SS", .num 0), ("%LS", .num 0),
    ("%DOL", .num 0), ("%ANH", .num 0), ("%Coal", .num 0), ("%Salt", .num 0),
    ("DT", .num 80), ("GR", .num 45)],
   [("DEPTH", .num 200), ("%SH", .num 1), ("%SS", .num 0), ("%LS", .num 0),
    ("%DOL", .num 0), ("%ANH", .num 0), ("%Coal", .num 0), ("%Salt", .num 0),
    ("DT", .num 85), ("GR", .num 50)],
   [("DEPTH", .num 300), ("%SH", .num 1), ("%SS", .num 0), ("%LS", .num 0),
    ("%DOL", .num 0), ("%ANH", .num 0), ("%Coal", .num 0), ("%Salt", .num 0),
    ("DT", .num 90), ("GR", .num 55)]]

/-- C5: the averages sum every row's `dt`/`gr` with `null` read as 0 and
divide by the total row count; on the three-row fixture with DT = 80, 85, 90
the average DT is exactly 85. -/
theorem computeStats_averages_divide_by_totalRows :
    (∀ rows : List ProcessedRow, rows ≠ [] →
      (computeStats rows).avgDT = (rows.map (fun r => r.DT.getD 0)).sum / rows.length ∧
      (computeStats rows).avgGR = (rows.map (fun r => r.GR.getD 0)).sum / rows.length) ∧
    (computeStats (processExcelData c5Data)).avgDT = 85 := by
  constructor
  · intro rows _
    constructor
    · simp [computeStats, dtSum, foldl_add_eq_sum]
    · simp [computeStats, grSum, foldl_add_eq_sum]
  · decide

/-- Witness for C5's universally quantified part at the concrete fixture. -/
theorem computeStats_averages_divide_by_totalRows_witness :
    (computeStats (processExcelData c5Data)).avgDT =
      ((processExcelData c5Data).map (fun r => r.DT.getD 0)).sum /
        (processExcelData c5Data).length :=
  (computeStats_averages_divide_by_totalRows.1 (processExcelData c5Data) (by decide)).1

/-! ## Validator error accumulation (claims C3, C4) -/

/-- A full record whose `%SH`/`%SS` cells are `a` and `b` and whose remaining
percentage cells are 0. -/
def c4SumRecord (a b : ℚ) : RawRecord :=
  [("DEPTH", .num 100), ("%SH", .num a), ("%SS", .num b), ("%LS", .num 0),
   ("%DOL", .num 0), ("%ANH", .num 0), ("%Coal", .num 0), ("%Salt", .num 0),
   ("DT", .num 80), ("GR", .num 50)]

/-- C4, counterexample: in binary64 arithmetic the doubles written 0.99 and
1.01 lie just outside the representable tolerance 0.01
(|0.99 - 1| = 0.010000000000000009 > 0.01), so rows summing to them DO
produce the sum error the claim says they avoid. -/
theorem validateExcelStructure_sum_boundary_cex :
    sumErrorsE 1 (c4SumRecord (roundDouble (99/100)) 0) =
      .ok ["Row 1: Rock composition percentages should sum to approximately 1.0 (current sum: 0.990)"] ∧
    sumErrorsE 1 (c4SumRecord (1/2) (roundDouble (51/100))) =
      .ok ["Row 1: Rock composition percentages should sum to approximately 1.0 (current sum: 1.010)"] :=
  ⟨by decide, by decide⟩

/-- C4 (amended: the boundary outcomes follow binary64 arithmetic): treating
absent/null percentage cells as 0, the row's sum error fires exactly when the
double computation |sum - 1| exceeds the double 0.01, and then carries the
sum rendered to 3 decimals; the doubles written 0.99 and 1.01 land just
outside that tolerance and so DO produce the error (as do 1.02 and 0.98),
while sums of exactly 1.0 or of the double 1.005 produce none. -/
theorem validateExcelStructure_sum_tolerance :
    (∀ (row : RawRecord) (n : ℕ) (q : ℚ), rockCompositionSum row = .num q →
      (sumErrorsE n row = .ok [] ↔ |dsub q 1| ≤ roundDouble (1 / 100)) ∧
      (|dsub q 1| > roundDouble (1 / 100) →
        sumErrorsE n row =
          .ok ["Row " ++ toString n ++
            ": Rock composition percentages should sum to approximately 1.0 (current sum: " ++
            toFixed 3 q ++ ")"])) ∧
    sumErrorsE 1 (c4SumRecord (1/2) (1/2)) = .ok [] ∧
    sumErrorsE 1 (c4SumRecord (1/2) (roundDouble (505/1000))) = .ok [] ∧
    sumErrorsE 1 (c4SumRecord (roundDouble (51/100)) (roundDouble (51/100))) =
      .ok ["Row 1: Rock composition percentages should sum to approximately 1.0 (current sum: 1.020)"] ∧
    sumErrorsE 1 (c4SumRecord (roundDouble (49/100)) (roundDouble (49/100))) =
      .ok ["Row 1: Rock composition percentages should sum to approximately 1.0 (current sum: 0.980)"] := by
  refine ⟨?_, by decide, by decide, by decide, by decide⟩
  intro row n q h
  have hform : sumErrorsE n row =
      if |dsub q 1| > roundDouble (1 / 100) then
        .ok ["Row " ++ toString n ++
          ": Rock composition percentages should sum to approximately 1.0 (current sum: " ++
          toFixed 3 q ++ ")"]
      else .ok [] := by
    by_cases hc : |dsub q 1| > roundDouble (1 / 100) <;>
      simp [sumErrorsE, sumCheckFails, h, jsToNumber, hc]
  constructor
  · rw [hform]
    split_ifs with hc
    · exact iff_of_false (by simp) (not_le.2 hc)
    · exact iff_of_true rfl (not_lt.1 hc)
  · intro hgt
    rw [hform, if_pos hgt]

/-- Witness for C4's universally quantified part at the 1.02 row. -/
theorem validateExcelStructure_sum_tolerance_witness :
    sumErrorsE 1 (c4SumRecord (roundDouble (51/100)) (roundDouble (51/100))) =
      .ok ["Row " ++ toString 1 ++
        ": Rock composition percentages should sum to approximately 1.0 (current sum: " ++
        toFixed 3 ((2296835809958953 : ℚ) / 2251799813685248) ++ ")"] :=
  (validateExcelStructure_sum_tolerance.1
    (c4SumRecord (roundDouble (51/100)) (roundDouble (51/100))) 1
    ((2296835809958953 : ℚ) / 2251799813685248)
    (by decide)).2 (by decide)

/-! ## Recommendation rules read the wrong distribution keys (claim C2) -/

/-- A one-row data set whose only row is 100% Shale, with unremarkable DT/GR
averages (80 and 50). -/
def c2ShaleData : List RawRecord :=
  [[("DEPTH", .num 100), ("%SH", .num 1), ("%SS", .num 0), ("%LS", .num 0),
    ("%DOL", .num 0), ("%ANH", .num 0), ("%Coal", .num 0), ("%Salt", .num 0),
    ("DT", .num 80), ("GR", .num 50)]]

/-- The chat context carrying that data set's rows and statistics. -/
def c2Context : UploadedData :=
  { rows := some (processExcelData c2ShaleData)
    statistics := some (computeStats (processExcelData c2ShaleData))
    fileId := none }

/-- C2, failing input: the statistics of a dataset that is 100% Shale carry
the distribution under the key "Shale", the recommendation generator reads
the abbreviated key "SH" (count 0), so the shale share computes as 0 and the
inhibitive-mud advice is NOT emitted — the output is the uniform-formation
default, contradicting the claimed shale rule. -/
theorem generateDrillingRecommendations_shale_rule_dead :
    (computeStats (processExcelData c2ShaleData)).rockTypeDistribution = [("Shale", 1)] ∧
    lookupCount (computeStats (processExcelData c2ShaleData)).rockTypeDistribution "SH" = 0 ∧
    generateDrillingRecommendations (some c2Context) =
      "Drilling recommendations based on your data: Formation appears relatively uniform - maintain current drilling parameters and monitor for changes." ∧
    jsIncludes (generateDrillingRecommendations (some c2Context)) "inhibitive mud" = false :=
  ⟨by decide, by decide, by decide, by decide⟩

/-! ## Anomaly detector scale (claim C10) -/

/-- A transformer row whose seven percentages sum to exactly 85. -/
def c10Record : RawRecord :=
  [("DEPTH", .num 100), ("%SH", .num 85), ("%SS", .num 0), ("%LS", .num 0),
   ("%DOL", .num 0), ("%ANH", .num 0), ("%Coal", .num 0), ("%Salt", .num 0),
   ("DT", .null), ("GR", .null)]

/-- C10, counterexample: a transformer row whose percentages sum to exactly
85 — "at most 85" per the claim — is NOT flagged, because the check is the
strict `|sum - 100| > 15`. -/
theorem detectDataAnomalies_sum85_not_flagged :
    totalComposition (processRow c10Record 0) = 85 ∧
    detectDataAnomalies (processExcelData [c10Record]) = [] :=
  ⟨by decide, by decide⟩

lemma compositionAnomaly_mem_rowAnomalies (r : ProcessedRow)
    (h : totalComposition r < 85) : compositionAnomaly r ∈ rowAnomalies r := by
  have habs : (15 : ℚ) < |totalComposition r - 100| := by
    rw [abs_sub_comm]
    calc (15 : ℚ) < 100 - totalComposition r := by linarith
    _ ≤ |100 - totalComposition r| := le_abs_self _
  simp [rowAnomalies, habs]

/-- C10 (amended, "at most 85" tightened to "strictly below 85"): the
detector flags every row whose seven percentages sum strictly below 85 with a
`composition_error`; every row passing the validator's ±0.01-of-1 fractional
sum check is such a row; hence on any non-empty dataset of such rows the
anomaly list (the per-row anomalies in order, capped at 5) is non-empty. -/
theorem detectDataAnomalies_flags_low_sums :
    (∀ rows : List ProcessedRow,
      detectDataAnomalies rows = ((rows.map rowAnomalies).flatten).take 5) ∧
    (∀ r : ProcessedRow, totalComposition r < 85 →
      compositionAnomaly r ∈ rowAnomalies r) ∧
    (∀ r : ProcessedRow, |totalComposition r - 1| ≤ 1 / 100 →
      totalComposition r < 85) ∧
    (∀ rows : List ProcessedRow, rows ≠ [] →
      (∀ r ∈ rows, totalComposition r < 85) → detectDataAnomalies rows ≠ []) := by
  refine ⟨fun rows => rfl, compositionAnomaly_mem_rowAnomalies, ?_, ?_⟩
  · intro r h
    have := abs_le.1 h
    linarith [this.2]
  · intro rows hne hall
    match rows with
    | [] => exact absurd rfl hne
    | r :: rest =>
      have hmem := compositionAnomaly_mem_rowAnomalies r (hall r (List.mem_cons_self _ _))
      have hne2 : rowAnomalies r ≠ [] := List.ne_nil_of_mem hmem
      obtain ⟨a, t, hat⟩ := List.exists_cons_of_ne_nil hne2
      simp [detectDataAnomalies, hat]

/-- Witness for C10's amended theorem on a fully valid three-row dataset. -/
theorem detectDataAnomalies_flags_low_sums_witness :
    detectDataAnomalies (processExcelData c5Data) ≠ [] :=
  detectDataAnomalies_flags_low_sums.2.2.2 (processExcelData c5Data)
    (by decide) (by decide)

/-! ## Chat endpoint absorbs LLM failure (claim C6) -/

/-- C7: a bad extension is rejected as unsupported format, a sheet decoding
to zero rows or to a lone header row is rejected for missing data rows, and
in all three cases the validator is never invoked (the Boolean component of
the handler's result). -/
theorem uploadHandler_rejects_before_validation :
    (∀ (ext : String) (outcome : ParseOutcome),
      allowedExtension ext = false →
      uploadHandler true ext outcome =
        (⟨400, some "Only Excel files are allowed", [], none, none⟩, false)) ∧
    (∀ ext : String,
      allowedExtension ext = true →
      uploadHandler true ext (.sheetRows []) =
        (⟨400, some "Invalid Excel file structure",
          ["Excel file is empty or contains no data"], none, none⟩, false)) ∧
    (∀ (ext : String) (header : List JSVal),
      allowedExtension ext = true →
      uploadHandler true ext (.sheetRows [header]) =
        (⟨400, some "Invalid Excel file structure",
          ["Excel file must contain at least a header row and one data row"],
          none, none⟩, false)) := by
  refine ⟨?_, ?_, ?_⟩
  · intro ext outcome h
    simp [uploadHandler, h]
  · intro ext h
    simp [uploadHandler, h]
  · intro ext header h
    simp [uploadHandler, h]

/-- Witness for C7 at concrete uploads (.csv file; empty sheet; lone header
row). -/
theorem uploadHandler_rejects_before_validation_witness :
    uploadHandler true ".csv" (.sheetRows [[JSVal.str "DEPTH"]]) =
      (⟨400, some "Only Excel files are allowed", [], none, none⟩, false) ∧
    uploadHandler true ".xlsx" (.sheetRows []) =
      (⟨400, some "Invalid Excel file structure",
        ["Excel file is empty or contains no data"], none, none⟩, false) ∧
    uploadHandler true ".xls" (.sheetRows [[JSVal.str "DEPTH"]]) =
      (⟨400, some "Invalid Excel file structure",
        ["Excel file must contain at least a header row and one data row"],
        none, none⟩, false) :=
  ⟨uploadHandler_rejects_before_validation.1 ".csv" (.sheetRows [[JSVal.str "DEPTH"]])
      (by decide),
   uploadHandler_rejects_before_validation.2.1 ".xlsx" (by decide),
   uploadHandler_rejects_before_validation.2.2 ".xls" [JSVal.str "DEPTH"] (by decide)⟩
